import Mathlib

/-!
Shallow embedding of `delete-documents.py`, a small utility that deletes
documents from a remote Azure Search index over REST.  The network is an
explicit oracle `net : HttpRequest → HttpResponse`; each component returns,
besides its result, the list of requests it actually issued, so that "no
network call" is a provable statement.  Machine-level concerns (actual HTTP,
environment loading) are external; everything the script computes is embedded
as executable Lean definitions.
-/

set_option autoImplicit false

namespace AzureSearchOps

/-- JSON values, as produced by Python dicts/lists/strings/ints.  Objects keep
their fields as an ordered association list, mirroring Python dict insertion
order, which the script relies on for its "first field" fallback. -/
inductive Json where
  | null : Json
  | bool (b : Bool) : Json
  | num (n : Int) : Json
  | str (s : String) : Json
  | arr (xs : List Json) : Json
  | obj (fields : List (String × Json)) : Json

/-- First value bound to `key` in an ordered field list (Python `d[key]` /
`key in d`; parsed JSON objects have unique keys, so first = only). -/
def lookupField (fields : List (String × Json)) (key : String) : Option Json :=
  match fields with
  | [] => none
  | (k, v) :: rest => if k == key then some v else lookupField rest key

/-- Fields of a JSON object; `[]` for non-objects. -/
def objFields : Json → List (String × Json)
  | .obj fs => fs
  | _ => []

/-- An outgoing HTTP request as the script assembles it: URL, header list,
JSON body (the script always POSTs). -/
structure HttpRequest where
  url : String
  headers : List (String × String)
  body : Json

/-- An HTTP response: status code, raw body text, and the body parsed as JSON
when it parses (`json = none` models `resp.json()` raising). -/
structure HttpResponse where
  status_code : Nat
  text : String
  json : Option Json

/-- The three environment values the script reads at startup
(`AZURE_SEARCH_ENDPOINT`, `AZURE_SEARCH_API_KEY`, `AZURE_SEARCH_INDEX`);
`none` models an unset variable. -/
structure Config where
  endpoint : Option String
  api_key : Option String
  index_name : Option String

/-- Python truthiness of an optional environment string: `not v` holds for
`None` and for the empty string. -/
def truthyOpt : Option String → Bool
  | none => false
  | some s => !s.isEmpty

/-- The `(name, value)` tuples inspected by `validate_env`, in source order. -/
def envPairs (cfg : Config) : List (String × Option String) :=
  [("AZURE_SEARCH_ENDPOINT", cfg.endpoint),
   ("AZURE_SEARCH_API_KEY", cfg.api_key),
   ("AZURE_SEARCH_INDEX", cfg.index_name)]

/-- Names of the environment values that are absent (falsy), in source order:
the list comprehension `[k for k, v in (...) if not v]`. -/
def missingVars (cfg : Config) : List String :=
  ((envPairs cfg).filter (fun p => !truthyOpt p.2)).map Prod.fst

/-- The `validate_env` function: raises `EnvironmentError` naming every
missing variable when any is missing, else returns normally. -/
def validate_env (cfg : Config) : Except String Unit :=
  if missingVars cfg = [] then .ok ()
  else .error ("Missing environment variables: "
      ++ String.intercalate ", " (missingVars cfg))

/-- Python `s.rstrip('/')`: drop every trailing slash. -/
def rstripSlash (s : String) : String :=
  s.dropRightWhile (· == '/')

/-- The header dict both components build: content type plus the credential. -/
def requestHeaders (cfg : Config) : List (String × String) :=
  [("Content-Type", "application/json"),
   ("api-key", cfg.api_key.getD "")]

/-- One delete-action record of the batch:
`{"@search.action": "delete", "id": doc_id}`. -/
def deleteRecord (doc_id : Json) : Json :=
  .obj [("@search.action", .str "delete"), ("id", doc_id)]

/-- The delete payload `{"value": [...]}`, one record per identifier in input
order (the list comprehension in `delete_documents`). -/
def deleteBody (doc_ids : List Json) : Json :=
  .obj [("value", .arr (doc_ids.map deleteRecord))]

/-- URL of the batch-index endpoint, as the f-string builds it. -/
def deleteUrl (cfg : Config) : String :=
  rstripSlash (cfg.endpoint.getD "") ++ "/indexes/" ++ cfg.index_name.getD ""
    ++ "/docs/index?api-version=2023-10-01-Preview"

/-- The single request `delete_documents` issues. -/
def deleteRequest (cfg : Config) (doc_ids : List Json) : HttpRequest :=
  { url := deleteUrl cfg
    headers := requestHeaders cfg
    body := deleteBody doc_ids }

/-- The `delete_documents` function: validate the environment, POST the batch,
and return the response untouched whatever its status.  The second component
lists the network requests actually issued. -/
def delete_documents (cfg : Config) (doc_ids : List Json)
    (net : HttpRequest → HttpResponse) :
    Except String HttpResponse × List HttpRequest :=
  match validate_env cfg with
  | .error e => (.error e, [])
  | .ok _ =>
      let req := deleteRequest cfg doc_ids
      (.ok (net req), [req])

/-- URL of the search endpoint, as the f-string builds it. -/
def searchUrl (cfg : Config) : String :=
  rstripSlash (cfg.endpoint.getD "") ++ "/indexes/" ++ cfg.index_name.getD ""
    ++ "/docs/search?api-version=2023-10-01-Preview"

/-- The search body dict in insertion order: `top`, `select`, then `search`
(the given text, or `"*"` when `search_text is None`), then `filter` only when
`filter_expr` is truthy (present and non-empty). -/
def searchBody (search_text filter_expr : Option String) (top : Nat) : Json :=
  .obj ([("top", Json.num (top : Int)), ("select", Json.str "id"),
         ("search", match search_text with
           | some t => Json.str t
           | none => Json.str "*")]
    ++ (match filter_expr with
        | some f => if f.isEmpty then [] else [("filter", Json.str f)]
        | none => []))

/-- The single request `search_doc_ids` issues. -/
def searchRequest (cfg : Config) (search_text filter_expr : Option String)
    (top : Nat) : HttpRequest :=
  { url := searchUrl cfg
    headers := requestHeaders cfg
    body := searchBody search_text filter_expr top }

/-- Identifier extraction for one record of the response `value` array: the
value of the field literally named `id` when present, else the value of the
first field of the record (the `for k, v in doc.items(): ...; break` fallback),
and nothing at all for a record with no fields.  A non-object record makes the
Python loop raise (`TypeError`/`AttributeError`), modelled as an error. -/
def extractRecId : Json → Except String (List Json)
  | .obj fields =>
      match lookupField fields "id" with
      | some v => .ok [v]
      | none =>
          match fields with
          | [] => .ok []
          | (_, v) :: _ => .ok [v]
  | _ => .error "TypeError: result record is not an object"

/-- Identifier extraction over the whole `value` array, in order. -/
def extractIds : List Json → Except String (List Json)
  | [] => .ok []
  | d :: ds =>
      match extractRecId d with
      | .error e => .error e
      | .ok h =>
          match extractIds ds with
          | .error e => .error e
          | .ok t => .ok (h ++ t)

/-- Handling of the parsed search-response body `data`: `data.get("value",
[])` then the extraction loop.  A non-object body or a non-array `value` makes
Python raise when touched (`AttributeError` / iteration `TypeError`), modelled
as errors; an absent `value` key defaults to the empty array. -/
def extractFromData : Option Json → Except String (List Json)
  | none => .error "JSONDecodeError: response body is not valid JSON"
  | some (.obj fields) =>
      match lookupField fields "value" with
      | some (.arr xs) => extractIds xs
      | some _ => .error "TypeError: value is not an array"
      | none => extractIds []
  | some _ => .error "AttributeError: response body is not a JSON object"

/-- The `search_doc_ids` function: validate the environment, POST the query,
raise `RuntimeError` with status and body text on any non-200 status, else
parse the body and extract identifiers.  The second component lists the
network requests actually issued. -/
def search_doc_ids (cfg : Config) (search_text filter_expr : Option String)
    (top : Nat) (net : HttpRequest → HttpResponse) :
    Except String (List Json) × List HttpRequest :=
  match validate_env cfg with
  | .error e => (.error e, [])
  | .ok _ =>
      let req := searchRequest cfg search_text filter_expr top
      let resp := net req
      if resp.status_code ≠ 200 then
        (.error ("Search failed: " ++ toString resp.status_code ++ " "
            ++ resp.text), [req])
      else
        (extractFromData resp.json, [req])

/-- Python `s.strip()`: drop leading and trailing whitespace (ASCII
whitespace; Python also strips some rarer Unicode spaces, which no claim
exercises). -/
def pyStrip (s : String) : String :=
  ⟨((s.data.dropWhile Char.isWhitespace).reverse.dropWhile
      Char.isWhitespace).reverse⟩

/-- Python `s.lower()` (ASCII case mapping, all any claim exercises). -/
def pyLower (s : String) : String :=
  ⟨s.data.map Char.toLower⟩

/-- Direct identifier entry (`[s.strip() for s in inp.split(",") if
s.strip()]`): split on commas, keep each stripped fragment that is non-empty,
in input order. -/
def resolveDirect (inp : String) : List String :=
  (inp.splitOn ",").filterMap
    (fun s => if (pyStrip s).isEmpty then none else some (pyStrip s))

/-- Python `int(s)` on an already `strip`-ed fragment: optional sign followed
by a non-empty run of decimal digits (digit-group underscores, non-ASCII
digits are not modelled), `None` when `int` would raise `ValueError`. -/
def parsePyInt (s : String) : Option Int :=
  let t := pyStrip s
  if t.startsWith "-" then ((t.drop 1).toNat?).map (fun n => -(n : Int))
  else if t.startsWith "+" then ((t.drop 1).toNat?).map (fun n => (n : Int))
  else (t.toNat?).map (fun n => (n : Int))

/-- One pass of the selection-number comprehension: parse each fragment,
failing (as `int` raising `ValueError`) on the first unparsable one. -/
def parseNumList : List String → Except String (List Int)
  | [] => .ok []
  | s :: rest =>
      match parsePyInt s with
      | none => .error ("invalid literal for int() with base 10: " ++ pyStrip s)
      | some n =>
          match parseNumList rest with
          | .error e => .error e
          | .ok ns => .ok (n :: ns)

/-- The selection parser `[int(s.strip()) for s in sel.split(',') if
s.strip()]`. -/
def parseNums (sel : String) : Except String (List Int) :=
  parseNumList ((sel.splitOn ",").filter (fun s => !(pyStrip s).isEmpty))

/-- The numeric selection step `[ids[n-1] for n in nums if 1 <= n <=
len(ids)]`: a 1-based position in range contributes the corresponding
displayed identifier, any position out of range is dropped. -/
def selectByNums (nums : List Int) (ids : List Json) : List Json :=
  nums.filterMap (fun n =>
    if 1 ≤ n ∧ n ≤ (ids.length : Int) then ids.get? (n - 1).toNat else none)

/-- CLI override of the index name: `if args.index: index_name = args.index`
(truthiness, so an empty string does not override). -/
def overrideIndex (cfg : Config) (cliIndex : Option String) : Config :=
  if truthyOpt cliIndex then { cfg with index_name := cliIndex } else cfg

/-- Observable end state of one run of `__main__`: a `SystemExit(0)` path with
the message printed just before it, a completed delete with the raw response,
or an exception caught by the top-level handler with its message. -/
inductive MainResult where
  | exited (msg : String) : MainResult
  | deleted (resp : HttpResponse) : MainResult
  | caught (msg : String) : MainResult

/-- A network call, tagged by which component issued it. -/
inductive TaggedCall where
  | search (req : HttpRequest) : TaggedCall
  | delete (req : HttpRequest) : TaggedCall

/-- The interactive inputs a run consumes, pre-supplied: the direct-ID line,
the search text, the filter expression, the selection line, and the final
confirmation. -/
structure Inputs where
  inp : String
  q : String
  f : String
  sel : String
  ok : String

/-- Tail of `__main__` from the `if not docs:` check (script lines 149-166):
exit successfully on an empty list, ask for confirmation, call
`delete_documents` only on `y` (case-insensitive, stripped), else print the
abort message and exit.  Returns the end state and the calls made. -/
def resolveAndConfirm (cfg : Config) (docs : List Json) (ok : String)
    (net : HttpRequest → HttpResponse) : MainResult × List TaggedCall :=
  if docs.isEmpty then (.exited "No document ids selected, exiting.", [])
  else if pyLower (pyStrip ok) = "y" then
    match delete_documents cfg docs net with
    | (.ok resp, reqs) => (.deleted resp, reqs.map TaggedCall.delete)
    | (.error e, reqs) => (.caught e, reqs.map TaggedCall.delete)
  else (.exited "Aborted by user.", [])

/-- The whole `__main__` flow: CLI index override, direct entry when the first
input line is non-blank, otherwise the search path (query/filter prompts,
`search_doc_ids` with `top=100`, empty-result exit, `all` or numeric
selection), then `resolveAndConfirm`.  Any raised error reaches the top-level
`except` as `.caught`. -/
def orchestrate (cfg : Config) (cliIndex : Option String) (ui : Inputs)
    (net : HttpRequest → HttpResponse) : MainResult × List TaggedCall :=
  let cfg := overrideIndex cfg cliIndex
  let inp := pyStrip ui.inp
  if !inp.isEmpty then
    resolveAndConfirm cfg ((resolveDirect inp).map Json.str) ui.ok net
  else
    let q := pyStrip ui.q
    let f := pyStrip ui.f
    match search_doc_ids cfg (if q.isEmpty then none else some q)
        (if f.isEmpty then none else some f) 100 net with
    | (.error e, reqs) => (.caught e, reqs.map TaggedCall.search)
    | (.ok ids, reqs) =>
        let calls := reqs.map TaggedCall.search
        if ids.isEmpty then
          (.exited "No documents found for that query/filter.", calls)
        else
          let sel := pyStrip ui.sel
          if pyLower sel = "all" then
            let (r, cs) := resolveAndConfirm cfg ids ui.ok net
            (r, calls ++ cs)
          else
            match parseNums sel with
            | .error e => (.caught e, calls)
            | .ok nums =>
                let (r, cs) :=
                  resolveAndConfirm cfg (selectByNums nums ids) ui.ok net
                (r, calls ++ cs)

/-- Python `repr` of a string as it appears when a dict is printed (quoting
subtleties are irrelevant to the properties proved here). -/
def pyStr (s : String) : String :=
  "'" ++ s ++ "'"

/-- Rendering of a header dict as `print` shows it.  The exact punctuation is
immaterial; what matters is which values flow into the output. -/
def renderHeaders (headers : List (String × String)) : String :=
  "\x7b" ++ String.intercalate ", "
    (headers.map (fun p => pyStr p.1 ++ ": " ++ pyStr p.2)) ++ "\x7d"

mutual

/-- Rendering of a JSON value as `json.dumps` does (whitespace/indentation
simplified; only the data flow matters for the redaction property). -/
def jsonDumps : Json → String
  | .null => "null"
  | .bool b => if b then "true" else "false"
  | .num n => toString n
  | .str s => "\"" ++ s ++ "\""
  | .arr xs => "[" ++ String.intercalate ", " (jsonDumpsList xs) ++ "]"
  | .obj fs => "\x7b" ++ String.intercalate ", " (jsonDumpsFields fs) ++ "\x7d"

/-- Rendering of the elements of a JSON array. -/
def jsonDumpsList : List Json → List String
  | [] => []
  | x :: xs => jsonDumps x :: jsonDumpsList xs

/-- Rendering of the fields of a JSON object. -/
def jsonDumpsFields : List (String × Json) → List String
  | [] => []
  | (k, v) :: fs => ("\"" ++ k ++ "\": " ++ jsonDumps v) :: jsonDumpsFields fs

end

/-- Header masking in `delete_documents`: copy the dict and overwrite
`api-key` with the placeholder when the key is present (`if "api-key" in
masked_headers:`). -/
def deleteMaskedHeaders (headers : List (String × String)) :
    List (String × String) :=
  if headers.any (fun p => p.1 == "api-key") then
    headers.map (fun p =>
      if p.1 == "api-key" then (p.1, "***REDACTED***") else p)
  else headers

/-- Header masking in `search_doc_ids`: unconditional dict assignment
`masked_headers["api-key"] = "***REDACTED***"`, which appends the key when it
was absent. -/
def searchMaskedHeaders (headers : List (String × String)) :
    List (String × String) :=
  if headers.any (fun p => p.1 == "api-key") then
    headers.map (fun p =>
      if p.1 == "api-key" then (p.1, "***REDACTED***") else p)
  else headers ++ [("api-key", "***REDACTED***")]

/-- First value bound to `key` in a header list. -/
def lookupHeader (headers : List (String × String)) (key : String) :
    Option String :=
  match headers with
  | [] => none
  | (k, v) :: rest => if k == key then some v else lookupHeader rest key

/-- The three `DEBUG:` lines `delete_documents` prints when the debug toggle
is on: method+URL, masked headers, payload. -/
def deleteDebugLines (cfg : Config) (doc_ids : List Json) : List String :=
  ["DEBUG: POST " ++ deleteUrl cfg,
   "DEBUG: headers: " ++ renderHeaders (deleteMaskedHeaders (requestHeaders cfg)),
   "DEBUG: payload: " ++ jsonDumps (deleteBody doc_ids)]

/-- The three `DEBUG:` lines `search_doc_ids` prints when the debug toggle is
on: method+URL, masked headers, body. -/
def searchDebugLines (cfg : Config) (search_text filter_expr : Option String)
    (top : Nat) : List String :=
  ["DEBUG: SEARCH POST " ++ searchUrl cfg,
   "DEBUG: headers: " ++ renderHeaders (searchMaskedHeaders (requestHeaders cfg)),
   "DEBUG: body: " ++ jsonDumps (searchBody search_text filter_expr top)]

/-! Concrete fixtures used by witnesses. -/

/-- A fully configured environment. -/
def cfgDemo : Config :=
  ⟨some "https://svc.example.test", some "secret-key", some "books"⟩

/-- An environment with the endpoint unset and an empty credential. -/
def cfgMissingDemo : Config := ⟨none, some "", some "books"⟩

/-- A network that answers every request with a 207 multi-status response. -/
def netDemo : HttpRequest → HttpResponse :=
  fun _ => ⟨207, "multi-status", some (Json.obj [])⟩

/-- A network that answers with 404 and an unparseable body. -/
def net404Demo : HttpRequest → HttpResponse :=
  fun _ => ⟨404, "index not found", none⟩

/-- A network that answers 200 with an empty result array. -/
def net200EmptyDemo : HttpRequest → HttpResponse :=
  fun _ => ⟨200, "", some (Json.obj [("value", Json.arr [])])⟩

/-- A network that answers 200 with a body that is not valid JSON. -/
def net200BadBodyDemo : HttpRequest → HttpResponse :=
  fun _ => ⟨200, "<html>oops</html>", none⟩

/-- A network that answers 200 with one result record that has no fields. -/
def net200EmptyRecordDemo : HttpRequest → HttpResponse :=
  fun _ => ⟨200, "", some (Json.obj [("value", Json.arr [Json.obj []])])⟩

/-- The records of a well-formed three-record search response. -/
def recordsDemo : List (List (String × Json)) :=
  [[("id", Json.str "doc1")],
   [("key", Json.str "doc2"), ("id", Json.str "doc3")],
   [("other", Json.str "doc4")]]

/-- A network that answers 200 with `recordsDemo`. -/
def net200RecordsDemo : HttpRequest → HttpResponse :=
  fun _ => ⟨200, "", some (Json.obj [("value", Json.arr (recordsDemo.map Json.obj))])⟩

/-- An interactive session that goes down the search path (blank first line)
with blank query and filter. -/
def uiSearchDemo : Inputs := ⟨"", "", "", "1", "n"⟩

/-! Helper lemmas shared by the claim theorems. -/

/-- Splitting a strip-and-keep comprehension into a map followed by a filter. -/
theorem filterMap_strip_eq (l : List String) :
    l.filterMap (fun s => if (pyStrip s).isEmpty then none else some (pyStrip s))
      = (l.map pyStrip).filter (fun t => !t.isEmpty) := by
  induction l with
  | nil => rfl
  | cons a l ih =>
      by_cases h : (pyStrip a).isEmpty <;>
        simp [List.filterMap_cons, List.filter_cons, h, ih]

/-- A valid configuration makes `validate_env` succeed. -/
theorem validate_env_ok {cfg : Config} (hcfg : missingVars cfg = []) :
    validate_env cfg = .ok () := by
  simp [validate_env, hcfg]

/-- Extraction never fails on an array whose elements are all objects, and
produces, per record, the `id` field's value when that field is present, else
the first field's value, else nothing. -/
theorem extractIds_map_obj (records : List (List (String × Json))) :
    extractIds (records.map Json.obj)
      = .ok (records.flatMap (fun fields =>
          match lookupField fields "id" with
          | some v => [v]
          | none =>
              match fields with
              | [] => []
              | (_, w) :: _ => [w])) := by
  induction records with
  | nil => rfl
  | cons r rest ih =>
      cases h : lookupField r "id" with
      | some v => simp [extractIds, extractRecId, h, ih]
      | none =>
          cases r with
          | nil => simp [extractIds, extractRecId, h, ih]
          | cons p ps => simp [extractIds, extractRecId, h, ih]

/-! Claim theorems. -/

/-- C2: for every identifier list, `delete_documents` issues exactly one
request whose body is `{"value": [...]}` with one
`{"@search.action": "delete", "id": <identifier>}` record per input
identifier in input order, and returns the network's response unmodified —
`.ok` whatever the status code. -/
theorem delete_documents_spec (cfg : Config) (doc_ids : List Json)
    (net : HttpRequest → HttpResponse) (hcfg : missingVars cfg = []) :
    delete_documents cfg doc_ids net
        = (.ok (net (deleteRequest cfg doc_ids)), [deleteRequest cfg doc_ids])
      ∧ (deleteRequest cfg doc_ids).body
        = Json.obj [("value", Json.arr (doc_ids.map (fun d =>
            Json.obj [("@search.action", Json.str "delete"), ("id", d)])))] := by
  refine ⟨?_, rfl⟩
  simp [delete_documents, validate_env_ok hcfg]

/-- Witness for C2 at a concrete configuration, batch and 207 response. -/
theorem delete_documents_spec_witness :
    delete_documents cfgDemo [Json.str "a", Json.str "b"] netDemo
        = (.ok (netDemo (deleteRequest cfgDemo [Json.str "a", Json.str "b"])),
           [deleteRequest cfgDemo [Json.str "a", Json.str "b"]])
      ∧ (deleteRequest cfgDemo [Json.str "a", Json.str "b"]).body
        = Json.obj [("value", Json.arr
            ([Json.str "a", Json.str "b"].map (fun d =>
              Json.obj [("@search.action", Json.str "delete"), ("id", d)])))] :=
  delete_documents_spec cfgDemo [Json.str "a", Json.str "b"] netDemo (by decide)

/-- C4: with any required value missing, both components fail without
consulting the network (empty call list), with a message listing exactly the
missing names. -/
theorem missing_config_blocks_both (cfg : Config)
    (hmiss : missingVars cfg ≠ []) :
    (∀ doc_ids net, delete_documents cfg doc_ids net
        = (.error ("Missing environment variables: "
            ++ String.intercalate ", " (missingVars cfg)), []))
    ∧ (∀ st fe top net, search_doc_ids cfg st fe top net
        = (.error ("Missing environment variables: "
            ++ String.intercalate ", " (missingVars cfg)), []))
    ∧ ("AZURE_SEARCH_ENDPOINT" ∈ missingVars cfg ↔ ¬truthyOpt cfg.endpoint)
    ∧ ("AZURE_SEARCH_API_KEY" ∈ missingVars cfg ↔ ¬truthyOpt cfg.api_key)
    ∧ ("AZURE_SEARCH_INDEX" ∈ missingVars cfg ↔ ¬truthyOpt cfg.index_name) := by
  have hval : validate_env cfg
      = .error ("Missing environment variables: "
          ++ String.intercalate ", " (missingVars cfg)) := by
    simp [validate_env, hmiss]
  refine ⟨?_, ?_, ?_, ?_, ?_⟩
  · intro doc_ids net; simp [delete_documents, hval]
  · intro st fe top net; simp [search_doc_ids, hval]
  all_goals
    cases h1 : truthyOpt cfg.endpoint <;>
    cases h2 : truthyOpt cfg.api_key <;>
    cases h3 : truthyOpt cfg.index_name <;>
      simp [missingVars, envPairs, h1, h2, h3]

/-- Witness for C4 at a configuration missing the endpoint (unset) and the
credential (empty string). -/
theorem missing_config_blocks_both_witness :
    delete_documents cfgMissingDemo [] netDemo
      = (.error ("Missing environment variables: "
          ++ String.intercalate ", " (missingVars cfgMissingDemo)), []) :=
  (missing_config_blocks_both cfgMissingDemo (by decide)).1 [] netDemo

/-- C10: direct comma-separated entry resolves to the whitespace-stripped
fragments in input order with empty fragments dropped, so no resolved
identifier is ever empty. -/
theorem resolveDirect_spec (inp : String) :
    resolveDirect inp
        = ((inp.splitOn ",").map pyStrip).filter (fun t => !t.isEmpty)
      ∧ ∀ s ∈ resolveDirect inp, ¬s.isEmpty := by
  have h := filterMap_strip_eq (inp.splitOn ",")
  refine ⟨h, ?_⟩
  intro s hs
  rw [resolveDirect, h] at hs
  simpa using (List.of_mem_filter hs)

/-- Witness for C10 on a concrete messy input line. -/
theorem resolveDirect_spec_witness :
    resolveDirect " a , ,b ,"
      = (((" a , ,b ,").splitOn ",").map pyStrip).filter
          (fun t => !t.isEmpty) :=
  (resolveDirect_spec " a , ,b ,").1

/-- C9: the numeric selection step only ever picks displayed identifiers: an
in-range 1-based position contributes exactly the identifier displayed at
that position, and an out-of-range position is silently dropped. -/
theorem selectByNums_spec (nums : List Int) (ids : List Json) :
    (∀ x ∈ selectByNums nums ids, x ∈ ids)
    ∧ (∀ n ns, 1 ≤ n → n ≤ (ids.length : Int) →
        ∃ x, ids.get? (n - 1).toNat = some x
          ∧ selectByNums (n :: ns) ids = x :: selectByNums ns ids)
    ∧ (∀ n ns, ¬(1 ≤ n ∧ n ≤ (ids.length : Int)) →
        selectByNums (n :: ns) ids = selectByNums ns ids) := by
  refine ⟨?_, ?_, ?_⟩
  · intro x hx
    rw [selectByNums] at hx
    obtain ⟨n, -, hn⟩ := List.mem_filterMap.mp hx
    by_cases h : 1 ≤ n ∧ n ≤ (ids.length : Int)
    · rw [if_pos h] at hn
      exact List.get?_mem hn
    · rw [if_neg h] at hn
      exact absurd hn (by simp)
  · intro n ns h1 h2
    have hlt : (n - 1).toNat < ids.length := by omega
    refine ⟨ids.get ⟨(n - 1).toNat, hlt⟩, List.get?_eq_get hlt, ?_⟩
    rw [selectByNums, selectByNums, List.filterMap_cons,
      if_pos ⟨h1, h2⟩, List.get?_eq_get hlt]
  · intro n ns h
    rw [selectByNums, selectByNums, List.filterMap_cons, if_neg h]

/-- Witness for C9: position 2 of a two-element list picks the second
identifier; the membership fact at the same input is immediate. -/
theorem selectByNums_spec_witness :
    ∃ x, [Json.str "p", Json.str "q"].get? ((2 : Int) - 1).toNat = some x
      ∧ selectByNums [2, 7] [Json.str "p", Json.str "q"]
        = x :: selectByNums [7] [Json.str "p", Json.str "q"] :=
  (selectByNums_spec [2, 7] [Json.str "p", Json.str "q"]).2.1 2 [7]
    (by decide) (by decide)

/-- C8: diagnostic output is independent of the credential — two runs that
differ only in the credential print identical `DEBUG:` lines for both
components — and the printed header line carries the fixed placeholder
`***REDACTED***` under `api-key`. -/
theorem debug_redaction_spec (cfg : Config) (k1 k2 : Option String)
    (doc_ids : List Json) (st fe : Option String) (top : Nat) :
    deleteDebugLines { cfg with api_key := k1 } doc_ids
        = deleteDebugLines { cfg with api_key := k2 } doc_ids
    ∧ searchDebugLines { cfg with api_key := k1 } st fe top
        = searchDebugLines { cfg with api_key := k2 } st fe top
    ∧ lookupHeader (deleteMaskedHeaders (requestHeaders cfg)) "api-key"
        = some "***REDACTED***"
    ∧ lookupHeader (searchMaskedHeaders (requestHeaders cfg)) "api-key"
        = some "***REDACTED***" :=
  ⟨rfl, rfl, rfl, rfl⟩

/-- Counterexample to C5 as stated: called with the *present* (but empty)
filter expression `some ""`, the outgoing body omits the `filter` field, so
"a filter field exactly when a filter expression is present" fails. -/
theorem searchBody_empty_filter_cex :
    lookupField (objFields (searchBody none (some "") 50)) "filter" = none
    ∧ (some "" : Option String).isSome = true :=
  ⟨rfl, rfl⟩

/-- C5 as amended: every Lookup call issues exactly one request whose body
carries the cap as `top`, the literal `"id"` as `select`, the supplied text
(or `"*"` when none) as `search`, and a `filter` field exactly when a
non-empty filter expression is supplied. -/
theorem search_request_body_spec (cfg : Config) (st fe : Option String)
    (top : Nat) (net : HttpRequest → HttpResponse)
    (hcfg : missingVars cfg = []) :
    (search_doc_ids cfg st fe top net).2 = [searchRequest cfg st fe top]
    ∧ lookupField (objFields (searchRequest cfg st fe top).body) "top"
        = some (Json.num top)
    ∧ lookupField (objFields (searchRequest cfg st fe top).body) "select"
        = some (Json.str "id")
    ∧ (∀ t, st = some t →
        lookupField (objFields (searchRequest cfg st fe top).body) "search"
          = some (Json.str t))
    ∧ (st = none →
        lookupField (objFields (searchRequest cfg st fe top).body) "search"
          = some (Json.str "*"))
    ∧ (∀ f, fe = some f → ¬f.isEmpty →
        lookupField (objFields (searchRequest cfg st fe top).body) "filter"
          = some (Json.str f))
    ∧ (∀ f, fe = some f → f.isEmpty →
        lookupField (objFields (searchRequest cfg st fe top).body) "filter"
          = none)
    ∧ (fe = none →
        lookupField (objFields (searchRequest cfg st fe top).body) "filter"
          = none) := by
  refine ⟨?_, ?_, ?_, ?_, ?_, ?_, ?_, ?_⟩
  · simp only [search_doc_ids, validate_env_ok hcfg]
    split <;> rfl
  · rfl
  · rfl
  · rintro t rfl; rfl
  · rintro rfl; rfl
  · rintro f rfl hf
    have hf' : f.isEmpty = false := by simpa using hf
    cases st <;>
      simp [searchRequest, searchBody, objFields, lookupField, hf']
  · rintro f rfl hf
    cases st <;>
      simp [searchRequest, searchBody, objFields, lookupField, hf]
  · rintro rfl; cases st <;> rfl

/-- Witness for C5 (amended) at a concrete call with no text and a non-empty
filter expression. -/
theorem search_request_body_spec_witness :
    (search_doc_ids cfgDemo none (some "category eq 1") 100 netDemo).2
      = [searchRequest cfgDemo none (some "category eq 1") 100] :=
  (search_request_body_spec cfgDemo none (some "category eq 1") 100 netDemo
    (by decide)).1

/-- Counterexample to C6 as stated: a 200 response whose `value` array holds
one record with no fields yields an empty identifier list, not one identifier
per record. -/
theorem search_ids_empty_record_cex :
    (search_doc_ids cfgDemo none none 50 net200EmptyRecordDemo).1
        = .ok ([] : List Json)
    ∧ ¬∃ x, (search_doc_ids cfgDemo none none 50 net200EmptyRecordDemo).1
        = .ok [x] := by
  have h : (search_doc_ids cfgDemo none none 50 net200EmptyRecordDemo).1
      = .ok ([] : List Json) := rfl
  refine ⟨h, ?_⟩
  rintro ⟨x, hx⟩
  rw [h] at hx
  simp at hx

/-- C6 as amended: a 200 response whose `value` array is a list of records
yields, in order, the `id` field's value for each record that has one, else
the first field's value, and nothing for a record with no fields; an empty
array yields the empty list. -/
theorem search_ids_extraction_spec (cfg : Config) (st fe : Option String)
    (top : Nat) (net : HttpRequest → HttpResponse)
    (records : List (List (String × Json)))
    (hcfg : missingVars cfg = [])
    (hstatus : (net (searchRequest cfg st fe top)).status_code = 200)
    (hjson : (net (searchRequest cfg st fe top)).json
      = some (Json.obj [("value", Json.arr (records.map Json.obj))])) :
    (search_doc_ids cfg st fe top net).1
      = .ok (records.flatMap (fun fields =>
          match lookupField fields "id" with
          | some v => [v]
          | none =>
              match fields with
              | [] => []
              | (_, w) :: _ => [w])) := by
  simp only [search_doc_ids, validate_env_ok hcfg, hstatus]
  simp [extractFromData, hjson, lookupField, extractIds_map_obj]

/-- Witness for C6 (amended) on a concrete three-record response exercising
all three record shapes. -/
theorem search_ids_extraction_spec_witness :
    (search_doc_ids cfgDemo none none 50 net200RecordsDemo).1
      = .ok (recordsDemo.flatMap (fun fields =>
          match lookupField fields "id" with
          | some v => [v]
          | none =>
              match fields with
              | [] => []
              | (_, w) :: _ => [w])) :=
  search_ids_extraction_spec cfgDemo none none 50 net200RecordsDemo
    recordsDemo (by decide) rfl rfl

/-- Counterexample to C3 as stated: a 200 response whose body is not valid
JSON still makes `search_doc_ids` raise (Python's `resp.json()` raising
`JSONDecodeError`), so "raises exactly when the status is not 200" fails. -/
theorem search_raises_on_unparseable_200_cex :
    (net200BadBodyDemo (searchRequest cfgDemo none none 50)).status_code = 200
    ∧ (search_doc_ids cfgDemo none none 50 net200BadBodyDemo).1
        = .error "JSONDecodeError: response body is not valid JSON" :=
  ⟨rfl, rfl⟩

/-- C3 as amended: every non-200 status raises the remote-query error carrying
exactly the status code and raw body text; a successful result implies the
status was 200; and a 200 response whose body parses as a JSON object of
records raises nothing. -/
theorem search_status_error_spec (cfg : Config) (st fe : Option String)
    (top : Nat) (net : HttpRequest → HttpResponse)
    (hcfg : missingVars cfg = []) :
    ((net (searchRequest cfg st fe top)).status_code ≠ 200 →
      (search_doc_ids cfg st fe top net).1
        = .error ("Search failed: "
            ++ toString (net (searchRequest cfg st fe top)).status_code
            ++ " " ++ (net (searchRequest cfg st fe top)).text))
    ∧ (∀ ids, (search_doc_ids cfg st fe top net).1 = .ok ids →
        (net (searchRequest cfg st fe top)).status_code = 200)
    ∧ ((net (searchRequest cfg st fe top)).status_code = 200 →
        ∀ records : List (List (String × Json)),
          (net (searchRequest cfg st fe top)).json
            = some (Json.obj [("value", Json.arr (records.map Json.obj))]) →
          ∃ ids, (search_doc_ids cfg st fe top net).1 = .ok ids) := by
  refine ⟨?_, ?_, ?_⟩
  · intro hne
    simp [search_doc_ids, validate_env_ok hcfg, hne]
  · intro ids hok
    by_contra hne
    simp [search_doc_ids, validate_env_ok hcfg, hne] at hok
  · intro hstatus records hjson
    exact ⟨_, search_ids_extraction_spec cfg st fe top net records hcfg
      hstatus hjson⟩

/-- Witness for C3 (amended): a 404 response with body text produces exactly
the remote-query error carrying 404 and that text. -/
theorem search_status_error_spec_witness :
    (search_doc_ids cfgDemo none none 50 net404Demo).1
      = .error ("Search failed: "
          ++ toString (net404Demo (searchRequest cfgDemo none none 50)).status_code
          ++ " " ++ (net404Demo (searchRequest cfgDemo none none 50)).text) :=
  (search_status_error_spec cfgDemo none none 50 net404Demo (by decide)).1
    (by decide)

/-- C1: at the confirmation gate (non-empty resolved list, valid
configuration), the delete network call happens exactly when the confirmation
input, stripped and lowercased, is `y`; any other input yields the abort
message, a success exit, and no network call; and on the direct-entry path the
whole orchestration reduces to this gate. -/
theorem confirmation_gate_spec (cfg : Config) (docs : List Json) (ok : String)
    (net : HttpRequest → HttpResponse) (hne : docs ≠ [])
    (hcfg : missingVars cfg = []) :
    (pyLower (pyStrip ok) = "y" →
      resolveAndConfirm cfg docs ok net
        = (.deleted (net (deleteRequest cfg docs)),
           [TaggedCall.delete (deleteRequest cfg docs)]))
    ∧ (pyLower (pyStrip ok) ≠ "y" →
      resolveAndConfirm cfg docs ok net = (.exited "Aborted by user.", []))
    ∧ (∀ (ui : Inputs) (cli : Option String), pyStrip ui.inp ≠ "" →
      orchestrate cfg cli ui net
        = resolveAndConfirm (overrideIndex cfg cli)
            ((resolveDirect (pyStrip ui.inp)).map Json.str) ui.ok net) := by
  refine ⟨?_, ?_, ?_⟩
  · intro hok
    simp [resolveAndConfirm, List.isEmpty_iff, hne, hok, delete_documents,
      validate_env_ok hcfg]
  · intro hok
    simp [resolveAndConfirm, List.isEmpty_iff, hne, hok]
  · intro ui cli hinp
    simp [orchestrate, String.isEmpty_iff, hinp]

/-- Witness for C1: a confirmation line reading `" Y "` triggers exactly one
delete call for a concrete one-element batch. -/
theorem confirmation_gate_spec_witness :
    resolveAndConfirm cfgDemo [Json.str "doc1"] " Y " netDemo
      = (.deleted (netDemo (deleteRequest cfgDemo [Json.str "doc1"])),
         [TaggedCall.delete (deleteRequest cfgDemo [Json.str "doc1"])]) :=
  (confirmation_gate_spec cfgDemo [Json.str "doc1"] " Y " netDemo
    (by simp) (by decide)).1 (by decide)

/-- C7: an empty resolved identifier list always ends the run with a success
exit and no delete call — on the selection side via the "No document ids
selected" exit, and on the lookup side (empty `value` array) via the "No
documents found" exit, with only search-tagged network calls made. -/
theorem empty_resolution_exits_spec (cfg : Config) (cli : Option String)
    (ui : Inputs) (net : HttpRequest → HttpResponse) :
    (∀ (docs : List Json) (ok : String), docs = [] →
      resolveAndConfirm cfg docs ok net
        = (.exited "No document ids selected, exiting.", []))
    ∧ (pyStrip ui.inp = "" →
      ∀ reqs, search_doc_ids (overrideIndex cfg cli)
          (if (pyStrip ui.q).isEmpty then none else some (pyStrip ui.q))
          (if (pyStrip ui.f).isEmpty then none else some (pyStrip ui.f)) 100 net
        = (.ok [], reqs) →
      orchestrate cfg cli ui net
        = (.exited "No documents found for that query/filter.",
           reqs.map TaggedCall.search)
      ∧ ∀ c ∈ reqs.map TaggedCall.search, ∀ r, c ≠ TaggedCall.delete r) := by
  refine ⟨?_, ?_⟩
  · rintro docs ok rfl
    rfl
  · intro hinp reqs hsearch
    constructor
    · simp [orchestrate, hinp, hsearch]
      intro h
      exact absurd h (by decide)
    · intro c hc r
      obtain ⟨req, -, rfl⟩ := List.mem_map.mp hc
      simp

/-- Witness for C7: a search session whose lookup returns an empty `value`
array exits with the "No documents found" message after one search-tagged
call. -/
theorem empty_resolution_exits_spec_witness :
    orchestrate cfgDemo none uiSearchDemo net200EmptyDemo
      = (.exited "No documents found for that query/filter.",
         [searchRequest (overrideIndex cfgDemo none) none none 100].map
           TaggedCall.search) :=
  ((empty_resolution_exits_spec cfgDemo none uiSearchDemo net200EmptyDemo).2
    rfl [searchRequest (overrideIndex cfgDemo none) none none 100] rfl).1

end AzureSearchOps
